import Mathlib

/-
  Shallow embedding of the beautifullydead/notifier pipeline
  (src/main.py and src/models.py) and proofs about its
  dedup-and-notify policy, retry controller, cycle scheduler,
  transactional scope and listing extraction.
-/

namespace Scraper

/-- Email configuration block, models.py:14-27 (field order as in the source). -/
structure EmailConfig where
  enabled : Bool
  smtp_server : String
  smtp_port : Nat
  smtp_use_tls : Bool
  imap_server : String
  imap_port : Nat
  username : String
  password : String
  from_address : String
  to_addresses : List String
  notification_subject_prefix : String
deriving Repr, DecidableEq

/-- Top-level configuration, models.py:53-69 (defaults as in the source). -/
structure Config where
  urls : List String
  email : EmailConfig
  db_user : String
  db_password : String
  filters : List String
  combine_notifications : Bool := true
  notification_cooldown : Nat := 300
  max_results_per_search : Nat := 20
  db_host : String := "localhost"
  db_port : String := "5432"
  db_name : String := "craigslist"
  db_pool_size : Nat := 5
  db_max_overflow : Nat := 10
  db_pool_timeout : Nat := 30
deriving Repr, DecidableEq

/-- One listing row, models.py:159-170 (`db_listing_entry`). The
autoincremented surrogate `id` column (init=False) is omitted; `cl_id` is the
unique identity key. `notified` has column default False. -/
structure Listing where
  link : String
  title : String
  cl_id : String
  screenshot_path : Option String
  time_posted : String
  location : String
  time_scraped : String
  notified : Bool := false
deriving Repr, DecidableEq

/-- A SQLAlchemy ORM session over the listings table: `committed` are the rows
currently in the database, `pending` the objects passed to session.add and not
yet flushed (INSERTs), `dirty` in-memory mutations of loaded rows not yet
flushed (UPDATEs, keyed by cl_id). -/
structure Session where
  committed : List Listing
  pending : List Listing
  dirty : List Listing
deriving Repr, DecidableEq

/-- Overlay the dirty row images onto the committed rows (flush of UPDATEs). -/
def applyDirty (committed dirty : List Listing) : List Listing :=
  committed.map (fun r =>
    match dirty.find? (fun d => d.cl_id == r.cl_id) with
    | some d => d
    | none => r)

/-- session.commit(): flush dirty UPDATEs and pending INSERTs into the
database in one transaction (success path). -/
def Session.commit (s : Session) : Session :=
  { committed := applyDirty s.committed s.dirty ++ s.pending,
    pending := [], dirty := [] }

/-- session.rollback(): discard everything that was not committed. -/
def Session.rollback (s : Session) : Session :=
  { s with pending := [], dirty := [] }

/-- session.query(...).filter_by(cl_id=cid).first(), with autoflush: pending
and dirty state is visible to the query; main.py:355. -/
def queryFirstByClId (s : Session) (cid : String) : Option Listing :=
  (applyDirty s.committed s.dirty ++ s.pending).find? (fun r => r.cl_id == cid)

/-- Record an in-memory mutation of a loaded row (`existing.notified = True`,
main.py:362): the row image keyed by its cl_id is replaced in the dirty set. -/
def markDirty (s : Session) (r : Listing) : Session :=
  { s with dirty := s.dirty.filter (fun d => !(d.cl_id == r.cl_id)) ++ [r] }

/-- Errors of the embedded program. `storageError` stands for
sqlalchemy.exc.SQLAlchemyError raised by the engine, `databaseError` for the
models.DatabaseError that session_scope re-raises (models.py:102-104, 188-191). -/
inductive PyErr where
  | nameError (n : String)
  | storageError
  | databaseError
  | otherError
deriving Repr, DecidableEq

/-- Error classification of models.py:186-195: an SQLAlchemyError escaping the
with-block (or the commit) is rolled back and re-raised as DatabaseError; any
other exception is rolled back and re-raised unchanged. -/
def scopeClassify : PyErr → PyErr
  | PyErr.storageError => PyErr.databaseError
  | e => e

/-- session_scope (models.py:181-197): open a session on the current store,
run the with-block body, commit on normal exit; on SQLAlchemyError (modelled by
`engineFails` for a failing flush/commit of the staged batch) roll back and
raise DatabaseError. Returns the outcome together with the database contents
afterwards. The store's commit is transactional at its boundary (spec section 6):
a failing commit persists nothing. -/
def session_scope (store : List Listing) (engineFails : Bool)
    (body : Session → Except PyErr Session) : Except PyErr Unit × List Listing :=
  let session : Session := ⟨store, [], []⟩
  match body session with
  | Except.ok s =>
      if engineFails then
        (Except.error PyErr.databaseError, (s.rollback).committed)
      else
        (Except.ok (), (s.commit).committed)
  | Except.error e =>
      (Except.error (scopeClassify e), (session.rollback).committed)

/-- Names bound at module level of main.py: the imports of main.py:1-20 and
the module-level assignments and function definitions (main.py:31-499).
Double-underscore implicit names are omitted; none of them is called db. -/
def mainModuleGlobalNames : List String :=
  ["sync_playwright", "PlaywrightTimeoutError", "MIMEText", "MIMEMultipart",
   "smtplib", "ssl", "html2text", "random", "time", "datetime", "argparse",
   "json", "logging", "Path", "contextmanager", "List", "Optional", "Dict",
   "Any", "select", "or_", "get_engine", "Config", "get_db", "Session",
   "init_db", "session_scope", "DatabaseError", "logger", "PAGE_LOAD_TIMEOUT",
   "MAX_RETRIES", "DEFAULT_CONFIG_PATH", "MIN_WAIT_TIME", "MAX_WAIT_TIME",
   "SMTP_MAX_RETRIES", "SMTP_TIMEOUT", "USER_AGENTS", "HTML_EMAIL_TEMPLATE",
   "get_random_user_agent", "random_sleep", "get_browser",
   "simulate_human_behavior", "handle_dialog", "scrape_listings",
   "load_config", "format_listing_for_email", "send_email",
   "send_notification", "send_error_notification", "process_listings", "main"]

/-- Local names of process_listings (main.py:349-381): its parameters and
every name assigned in its body (Python scoping makes exactly these local). -/
def processListingsLocalNames : List String :=
  ["listings", "session", "config", "new_listings", "listing", "existing", "e"]

/-- The Python builtin names referenced anywhere in main.py; the full builtins
namespace of CPython likewise contains no name db. -/
def pythonBuiltinNames : List String :=
  ["range", "len", "enumerate", "open", "str", "max", "isinstance",
   "Exception", "ValueError", "KeyboardInterrupt", "print"]

/-- Python name resolution for the free name db inside process_listings:
local scope, then module globals, then builtins (there is no enclosing
function scope: process_listings is defined at module level, and the variable
db of main, main.py:402, is local to main). When every lookup fails, the
reference raises NameError. -/
def dbNameDefined : Bool :=
  processListingsLocalNames.contains "db"
  || mainModuleGlobalNames.contains "db"
  || pythonBuiltinNames.contains "db"

/-- One iteration of the per-record loop of process_listings
(main.py:353-365). The body first evaluates `session.query(db)`: when the name
db is undefined this raises NameError before anything else runs, and the
per-record handler at main.py:363-365 catches it and continues, leaving the
accumulator (session state, new_listings) unchanged. Otherwise the dedup logic
of main.py:355-362 runs. -/
def procStep (acc : Session × List Listing) (listing : Listing) :
    Session × List Listing :=
  if dbNameDefined then
    let s := acc.1
    let nl := acc.2
    match queryFirstByClId s listing.cl_id with
    | none =>
        ({ s with pending := s.pending ++ [listing] }, nl ++ [listing])
    | some existing =>
        if existing.notified then
          (s, nl)
        else
          let updated := { existing with notified := true }
          (markDirty s updated, nl ++ [updated])
  else
    acc

/-- The notification block of main.py:370-374: the list of listing batches
passed to send_notification, one call per batch. -/
def sendNotificationCalls (newListings : List Listing) (config : Config) :
    List (List Listing) :=
  if config.combine_notifications then [newListings]
  else newListings.map (fun l => [l])

/-- Result of one process_listings call: the session state afterwards, the
new_listings accumulator (the notify-set), and the batches handed to
send_notification. -/
structure ProcOut where
  sess : Session
  notifySet : List Listing
  batches : List (List Listing)
deriving Repr, DecidableEq

/-- process_listings (main.py:349-381): fold the per-record step over the
extracted records; if new_listings is non-empty, session.commit()
(main.py:368) and then dispatch the notification batches (dispatch failures
are caught at main.py:375-376 and do not undo the commit). -/
def process_listings (listings : List Listing) (session : Session)
    (config : Config) : ProcOut :=
  let folded := listings.foldl procStep (session, [])
  if folded.2.isEmpty then
    { sess := folded.1, notifySet := folded.2, batches := [] }
  else
    { sess := folded.1.commit, notifySet := folded.2,
      batches := sendNotificationCalls folded.2 config }

/-- MAX_RETRIES constant, main.py:35. -/
def MAX_RETRIES : Nat := 3

/-- Outcome of one attempt of the per-URL operation (browser setup, goto,
scrape and, when applicable, process): success, a PlaywrightTimeoutError, a
DatabaseError, or any other exception (which the retry loop does not catch). -/
inductive AttemptResult where
  | success
  | timeout
  | dbError
  | fatal
deriving Repr, DecidableEq

/-- Error that escapes the retry loop. -/
inductive AttemptErr where
  | timeout
  | dbError
  | fatal
deriving Repr, DecidableEq

/-- Observable trace of the retry loop: number of times the operation was
invoked, the (lower, upper) second bounds of each random_sleep between
attempts, and the final outcome. -/
structure RetryTrace where
  calls : Nat
  sleeps : List (Nat × Nat)
  outcome : Except AttemptErr Unit
deriving Repr

/-- The body of `for retry in range(MAX_RETRIES)` (main.py:431-476), iterated
over the remaining retry indices. On success the loop breaks; on
PlaywrightTimeoutError or DatabaseError, the last attempt re-raises and
earlier attempts sleep random_sleep(5*(retry+1), 10*(retry+1)) and continue
(main.py:465-476); any other exception propagates at once. -/
def retryGo (op : Nat → AttemptResult) (maxRetries : Nat) :
    List Nat → RetryTrace
  | [] => ⟨0, [], Except.ok ()⟩
  | retry :: rest =>
    match op retry with
    | AttemptResult.success => ⟨1, [], Except.ok ()⟩
    | AttemptResult.timeout =>
        if retry = maxRetries - 1 then ⟨1, [], Except.error AttemptErr.timeout⟩
        else
          let r := retryGo op maxRetries rest
          ⟨1 + r.calls, (5 * (retry + 1), 10 * (retry + 1)) :: r.sleeps, r.outcome⟩
    | AttemptResult.dbError =>
        if retry = maxRetries - 1 then ⟨1, [], Except.error AttemptErr.dbError⟩
        else
          let r := retryGo op maxRetries rest
          ⟨1 + r.calls, (5 * (retry + 1), 10 * (retry + 1)) :: r.sleeps, r.outcome⟩
    | AttemptResult.fatal => ⟨1, [], Except.error AttemptErr.fatal⟩

/-- The retry controller around one URL: run the per-attempt operation for
retry indices 0 .. maxRetries-1 as in main.py:431-476. -/
def withRetry (op : Nat → AttemptResult) (maxRetries : Nat) : RetryTrace :=
  retryGo op maxRetries (List.range maxRetries)

/-- What one configured URL produces in one cycle: either some attempt
succeeded and scraping returned these records, or every retry was consumed and
the error escaped the retry loop. -/
inductive UrlOutcome where
  | ok (listings : List Listing)
  | exhausted
deriving Repr, DecidableEq

/-- Observable result of one cycle (one pass of the `for i, url in
enumerate(config.urls)` loop, main.py:430-476): store afterwards, dispatched
batches, how many URL iterations ran to completion, and whether an escaping
error aborted the cycle. -/
structure CycleRun where
  store : List Listing
  batches : List (List Listing)
  urlsHandled : Nat
  aborted : Bool
deriving Repr, DecidableEq

/-- Handling of one successfully scraped URL inside a cycle (main.py:453-457):
except on the initial run, the scraped records go through process_listings
inside session_scope, whose closing commit uses the success path here (engine
failure is modelled at session_scope itself). -/
def urlStep (config : Config) (initialRun : Bool) (store ls : List Listing) :
    List Listing × List (List Listing) :=
  if initialRun then (store, [])
  else
    let pr := process_listings ls ⟨store, [], []⟩ config
    ((pr.sess.commit).committed, pr.batches)

/-- One cycle of the scheduler, driven by the per-URL outcomes (the k-th
outcome belongs to the k-th configured URL). There is no try/except inside the
URL loop: when a URL's retries are exhausted, the re-raised error propagates
out of the URL loop to the handlers of the while loop (main.py:489-497), so
the remaining URLs of the cycle are skipped. -/
def runCycle (config : Config) (initialRun : Bool) :
    List Listing → List UrlOutcome → CycleRun
  | store, [] => ⟨store, [], 0, false⟩
  | store, UrlOutcome.exhausted :: _ => ⟨store, [], 0, true⟩
  | store, UrlOutcome.ok ls :: rest =>
      let stepped := urlStep config initialRun store ls
      let r := runCycle config initialRun stepped.1 rest
      ⟨r.store, stepped.2 ++ r.batches, r.urlsHandled + 1, r.aborted⟩

/-- Observable result of a run of several cycles: store, all dispatched
batches in order, and the initial_run flag afterwards. -/
structure PipelineRun where
  store : List Listing
  batches : List (List Listing)
  initialRun : Bool
deriving Repr, DecidableEq

/-- The while loop of main (main.py:426-497), driven cycle by cycle by the
per-URL outcomes. `initial_run = False` (main.py:478) is reached only when the
URL loop completed; when an error aborted the cycle, the while-level handler
catches it, sleeps, and the loop continues with the flag unchanged. -/
def runCycles (config : Config) :
    List Listing → Bool → List (List UrlOutcome) → PipelineRun
  | store, initialRun, [] => ⟨store, [], initialRun⟩
  | store, initialRun, cyc :: rest =>
      let c := runCycle config initialRun store cyc
      let init1 := if c.aborted then initialRun else false
      let r := runCycles config c.store init1 rest
      ⟨r.store, c.batches ++ r.batches, r.initialRun⟩

/-- The separator literal of main.py:214, exactly as the two characters that
stand in the source (U+00C2 followed by U+00B7). -/
def META_SEPARATOR : String := "Â·"

/-- Splitting a character sequence on a non-empty separator sequence, the
semantics shared by JavaScript String.prototype.split with a string argument
and Python str.split with a separator: every occurrence separates, adjacent
occurrences give empty segments, and a text without the separator is one
segment. The fuel argument (instantiated with the text length plus one) only
serves structural termination; each step consumes at least one character. -/
def splitSeqGo (sep : List Char) : Nat → List Char → List Char → List (List Char)
  | 0, rest, acc => [(acc.reverse ++ rest)]
  | _ + 1, [], acc => [acc.reverse]
  | fuel + 1, c :: cs, acc =>
      if sep.isPrefixOf (c :: cs) then
        acc.reverse :: splitSeqGo sep fuel ((c :: cs).drop sep.length) []
      else
        splitSeqGo sep fuel cs (c :: acc)

/-- String split on a non-empty separator string. -/
def splitSeq (s sep : String) : List String :=
  (splitSeqGo sep.data (s.data.length + 1) s.data []).map List.asString

/-- JavaScript String.prototype.trim: surrounding whitespace removed from both
ends. -/
def jsTrim (s : String) : String :=
  List.asString
    (((s.data.dropWhile Char.isWhitespace).reverse.dropWhile
        Char.isWhitespace).reverse)

/-- The meta-field split of main.py:214-219: JavaScript
meta_el.textContent.split on the separator literal, destructured into
posted_time and location and trimmed. When the separator does not occur, the
destructured location is undefined and location.trim() throws, the promise
rejects, el.evaluate raises, and the per-element handler at main.py:233-235
drops the element: no field pair is produced. -/
def splitMeta (meta : String) : Option (String × String) :=
  match splitSeq meta META_SEPARATOR with
  | [] => none
  | [_] => none
  | p :: q :: _ => some (jsTrim p, jsTrim q)

/-- Python str.removesuffix for the fixed suffix .html (main.py:227). -/
def removeSuffixHtml (s : String) : String :=
  if ".html".data.isSuffixOf s.data then
    List.asString (s.data.take (s.data.length - 5))
  else s

/-- Identity derivation of main.py:227: the last slash-separated segment of
the link with a trailing .html stripped. -/
def clIdOfLink (link : String) : String :=
  removeSuffixHtml ((splitSeq link "/").getLastD "")

/-- Parsing of one listing element (main.py:205-232): given the element's
title text, link href, meta text and the cycle timestamp, either the
constructed record or none when the element was dropped with a parse error. -/
def parseListingElement (title link meta timestamp : String) : Option Listing :=
  match splitMeta meta with
  | none => none
  | some pair =>
      some { link := link, title := title, cl_id := clIdOfLink link,
             screenshot_path := some "", time_posted := pair.1,
             location := pair.2, time_scraped := timestamp, notified := false }

/-- Sample record used by concrete witnesses. -/
def sampleListing : Listing :=
  { link := "https://newyork.craigslist.org/brk/zip/d/old-bookshelf/7001234567.html",
    title := "Old bookshelf", cl_id := "7001234567",
    screenshot_path := some "", time_posted := "3h ago", location := "Brooklyn",
    time_scraped := "2026-10-12 09:00:00", notified := false }

/-- Second sample record. -/
def sampleListing2 : Listing :=
  { sampleListing with cl_id := "7001234568", title := "Desk lamp" }

/-- Third sample record. -/
def sampleListing3 : Listing :=
  { sampleListing with cl_id := "7001234569", title := "Moving boxes" }

/-- Fourth sample record. -/
def sampleListing4 : Listing :=
  { sampleListing with cl_id := "7001234570", title := "Couch" }

/-- Fifth sample record. -/
def sampleListing5 : Listing :=
  { sampleListing with cl_id := "7001234571", title := "Mirror" }

/-- Three newly eligible records. -/
def sampleThree : List Listing := [sampleListing, sampleListing2, sampleListing3]

/-- Five records for the mid-batch rollback scenario. -/
def sampleFive : List Listing :=
  [sampleListing, sampleListing2, sampleListing3, sampleListing4, sampleListing5]

/-- A stored row that has not been notified yet. -/
def sampleStored : Listing := { sampleListing with notified := false }

/-- A stored row that has already been notified. -/
def sampleNotified : Listing := { sampleListing with notified := true }

/-- A session whose database already holds sampleStored. -/
def sampleSession : Session := ⟨[sampleStored], [], []⟩

/-- Sample email configuration (enabled). -/
def sampleEmailConfig : EmailConfig :=
  ⟨true, "smtp.example.org", 587, true, "imap.example.org", 993, "user", "pw",
   "from@example.org", ["to@example.org"], "CL notifier:"⟩

/-- Sample configuration with combine_notifications = true. -/
def sampleConfig : Config :=
  { urls := ["https://newyork.craigslist.org/search/brk/zip"],
    email := sampleEmailConfig, db_user := "u", db_password := "p",
    filters := [] }

/-- Sample configuration with combine_notifications = false and two URLs. -/
def sampleConfigSeparate : Config :=
  { sampleConfig with
    urls := ["https://newyork.craigslist.org/search/brk/zip",
             "https://newyork.craigslist.org/search/que/zip"],
    combine_notifications := false }

/-- The name db resolves to nothing in the scope of process_listings. -/
theorem dbNameDefined_eq_false : dbNameDefined = false := rfl

/-- Each per-record iteration of process_listings leaves the accumulator
unchanged: the NameError is raised and caught. -/
theorem procStep_eq (acc : Session × List Listing) (l : Listing) :
    procStep acc l = acc := by
  simp [procStep, dbNameDefined_eq_false]

/-- Folding the per-record step over any record list is the identity. -/
theorem foldl_procStep (listings : List Listing) (acc : Session × List Listing) :
    listings.foldl procStep acc = acc := by
  induction listings generalizing acc with
  | nil => rfl
  | cons h t ih => rw [List.foldl_cons, procStep_eq]; exact ih acc

/-- process_listings returns the session untouched, an empty notify-set, and
no dispatched batches, for every input. -/
theorem process_listings_eq (listings : List Listing) (s : Session)
    (c : Config) : process_listings listings s c = ⟨s, [], []⟩ := by
  simp [process_listings, foldl_procStep]

/-- Overlaying an empty dirty set changes nothing. -/
theorem applyDirty_nil (committed : List Listing) :
    applyDirty committed [] = committed := by
  simp [applyDirty]

/-- Committing a freshly opened session on a store returns that store. -/
theorem commit_clean (store : List Listing) :
    (Session.commit ⟨store, [], []⟩).committed = store := by
  simp [Session.commit, applyDirty_nil]

/-- Handling one successful URL changes neither the store nor dispatches
anything. -/
theorem urlStep_eq (config : Config) (initialRun : Bool)
    (store ls : List Listing) :
    urlStep config initialRun store ls = (store, []) := by
  cases initialRun with
  | false => simp [urlStep, process_listings_eq, commit_clean]
  | true => simp [urlStep]

/-- A cycle never changes the store and never dispatches a batch. -/
theorem runCycle_inert (config : Config) (initialRun : Bool)
    (outs : List UrlOutcome) (store : List Listing) :
    (runCycle config initialRun store outs).store = store ∧
    (runCycle config initialRun store outs).batches = [] := by
  induction outs generalizing store with
  | nil => exact ⟨rfl, rfl⟩
  | cons o rest ih =>
      cases o with
      | exhausted => exact ⟨rfl, rfl⟩
      | ok ls =>
          have h := ih store
          simp [runCycle, urlStep_eq, h.1, h.2]

/-- A cycle whose URL outcomes are some successes followed by an exhausted URL
handles exactly the successful prefix, then aborts with the store unchanged
and nothing dispatched. -/
theorem runCycle_abort (config : Config) (initialRun : Bool)
    (pres : List (List Listing)) (store : List Listing)
    (tail : List UrlOutcome) :
    runCycle config initialRun store
        (pres.map UrlOutcome.ok ++ UrlOutcome.exhausted :: tail) =
      ⟨store, [], pres.length, true⟩ := by
  induction pres generalizing store with
  | nil => rfl
  | cons p ps ih =>
      simp [runCycle, urlStep_eq, ih store]

/-- A whole run never changes the store and never dispatches a batch. -/
theorem runCycles_inert (config : Config) (cycles : List (List UrlOutcome))
    (store : List Listing) (initialRun : Bool) :
    (runCycles config store initialRun cycles).store = store ∧
    (runCycles config store initialRun cycles).batches = [] := by
  induction cycles generalizing store initialRun with
  | nil => exact ⟨rfl, rfl⟩
  | cons c rest ih =>
      have h1 := runCycle_inert config initialRun c store
      constructor
      · show (runCycles config (runCycle config initialRun store c).store
            _ rest).store = store
        rw [h1.1]
        exact (ih store _).1
      · show (runCycle config initialRun store c).batches ++
            (runCycles config (runCycle config initialRun store c).store
              _ rest).batches = []
        rw [h1.1, h1.2]
        exact (ih store _).2

/-- Claim C1: for every list of extracted records handed to process_listings,
the operation performs zero store inserts, zero updates of the notified flag
and zero notification dispatches: the per-record lookup references the name
db, which is undefined in the function's scope (it is a local variable of
main, never a module-level name), so every iteration raises NameError into the
per-record handler and the notify-set stays empty. -/
theorem claimC1_process_listings_inert (listings : List Listing)
    (session : Session) (config : Config) :
    process_listings listings session config = ⟨session, [], []⟩ :=
  process_listings_eq listings session config

/-- Claim C2: for every logical record identity, across every store state and
every sequence of per-cycle extraction outcomes, at most one dispatched batch
ever contains a record of that identity (in the shipped code the count is in
fact zero, because the policy of C1 never reaches a dispatch). -/
theorem claimC2_at_most_one_batch (config : Config) (store : List Listing)
    (initialRun : Bool) (cycles : List (List UrlOutcome)) (cid : String) :
    ((runCycles config store initialRun cycles).batches.filter
      (fun b => b.any (fun l => l.cl_id == cid))).length ≤ 1 := by
  rw [(runCycles_inert config cycles store initialRun).2]
  simp

/-- Claim C3, evaluated at the failing input: starting from an empty store on
the very first cycle, with the same record extracted on cycle one and again on
cycle two, the first cycle indeed persists and notifies nothing (first-cycle
suppression), but the record re-extracted on cycle two is NOT inserted and NOT
made a notify-candidate either - the store is still empty and nothing was
dispatched - contradicting the claim's second half. -/
theorem claimC3_cycle_two_no_insert :
    runCycles sampleConfig [] true
        [[UrlOutcome.ok [sampleListing]], [UrlOutcome.ok [sampleListing]]] =
      ⟨[], [], false⟩ := rfl

/-- Claim C4: an operation raising TimeoutError on every attempt is invoked
exactly MAX_RETRIES = 3 times by the retry loop and the error then propagates;
the sleeps between consecutive attempts have bounds 5..10 and then 10..20
seconds, i.e. attempt*5 to attempt*10 for 1-based attempt index. -/
theorem claimC4_retry_three_attempts (op : Nat → AttemptResult)
    (h : ∀ n, op n = AttemptResult.timeout) :
    withRetry op MAX_RETRIES =
      ⟨3, [(5, 10), (10, 20)], Except.error AttemptErr.timeout⟩ := by
  have hr : List.range MAX_RETRIES = [0, 1, 2] := rfl
  show retryGo op MAX_RETRIES (List.range MAX_RETRIES) = _
  rw [hr]
  simp [retryGo, h 0, h 1, h 2, MAX_RETRIES]

/-- Claim C4 witness: the always-timeout operation realizes the hypothesis. -/
theorem claimC4_retry_witness :
    withRetry (fun _ => AttemptResult.timeout) MAX_RETRIES =
      ⟨3, [(5, 10), (10, 20)], Except.error AttemptErr.timeout⟩ :=
  claimC4_retry_three_attempts (fun _ => AttemptResult.timeout) (fun _ => rfl)

/-- Claim C5 counterexample: with two configured URLs, a first URL whose
retries are exhausted aborts the cycle - zero URL iterations complete, the
error escapes to the while-level handler, and the second URL is never reached
in that cycle - refuting the claim that the cycle continues with the remaining
URLs. -/
theorem claimC5_counterexample :
    (runCycle sampleConfigSeparate false []
        [UrlOutcome.exhausted, UrlOutcome.ok [sampleListing]]).urlsHandled = 0 ∧
    (runCycle sampleConfigSeparate false []
        [UrlOutcome.exhausted, UrlOutcome.ok [sampleListing]]).aborted = true :=
  ⟨rfl, rfl⟩

/-- Claim C5 amended: when a URL's retries are exhausted, the error escapes
the URL loop (there is no per-URL handler): exactly the URLs before it are
handled, the remaining URLs of that cycle are skipped and the cycle aborts;
the handler at the while-loop level catches the error, so the process survives
and the following cycles run exactly as if the aborted cycle had not
happened. -/
theorem claimC5_cycle_aborts_and_survives (config : Config)
    (initialRun : Bool) (store : List Listing) (pres : List (List Listing))
    (tail : List UrlOutcome) (more : List (List UrlOutcome)) :
    (runCycle config initialRun store
        (pres.map UrlOutcome.ok ++ UrlOutcome.exhausted :: tail)).urlsHandled =
      pres.length ∧
    (runCycle config initialRun store
        (pres.map UrlOutcome.ok ++ UrlOutcome.exhausted :: tail)).aborted =
      true ∧
    runCycles config store initialRun
        ((pres.map UrlOutcome.ok ++ UrlOutcome.exhausted :: tail) :: more) =
      runCycles config store initialRun more := by
  have h := runCycle_abort config initialRun pres store tail
  refine ⟨by rw [h], by rw [h], ?_⟩
  show PipelineRun.mk _ _ _ = _
  rw [h]
  simp [runCycles]

/-- Claim C6: the notification block of process_listings groups the notify-set
per combine_notifications: with 3 newly eligible records, one
send_notification call carrying all 3 under the combine policy, and exactly 3
calls of one record each otherwise. -/
theorem claimC6_batch_grouping (nl : List Listing) (cfgT cfgF : Config)
    (hlen : nl.length = 3) (hT : cfgT.combine_notifications = true)
    (hF : cfgF.combine_notifications = false) :
    sendNotificationCalls nl cfgT = [nl] ∧
    (sendNotificationCalls nl cfgF).length = 3 ∧
    sendNotificationCalls nl cfgF = nl.map (fun l => [l]) := by
  refine ⟨?_, ?_, ?_⟩ <;> simp [sendNotificationCalls, hT, hF, hlen]

/-- Claim C6 witness: three concrete records under a combining and a
non-combining configuration. -/
theorem claimC6_batch_grouping_witness :
    sendNotificationCalls sampleThree sampleConfig = [sampleThree] ∧
    (sendNotificationCalls sampleThree sampleConfigSeparate).length = 3 ∧
    sendNotificationCalls sampleThree sampleConfigSeparate =
      sampleThree.map (fun l => [l]) :=
  claimC6_batch_grouping sampleThree sampleConfig sampleConfigSeparate rfl rfl
    rfl

/-- Claim C7 counterexample: sampleStored is present in the store with
notified = false and is presented to the policy, yet it is not marked a
notify-candidate - the notify-set stays empty - and the session is returned
unchanged, so its notified flag never flips and no dispatch ever contains it:
the lookup raises NameError before the record can be found. -/
theorem claimC7_counterexample :
    sampleStored ∈ sampleSession.committed ∧
    sampleStored.notified = false ∧
    sampleStored ∉
      (process_listings [sampleStored] sampleSession sampleConfig).notifySet ∧
    (process_listings [sampleStored] sampleSession sampleConfig).sess =
      sampleSession := by
  have h := process_listings_eq [sampleStored] sampleSession sampleConfig
  refine ⟨by simp [sampleSession], rfl, ?_, by rw [h]⟩
  rw [h]
  simp

/-- Claim C7 amended: because the name db is undefined, the per-record lookup
raises for every record, so a record present in the store with
notified = false is never marked a notify-candidate, nothing is inserted or
updated (the session is returned unchanged and the notified flag never flips),
and no batch is dispatched. -/
theorem claimC7_record_never_marked (listings : List Listing)
    (session : Session) (config : Config) (x : Listing)
    (hmem : x ∈ session.committed) (hnot : x.notified = false) :
    (process_listings listings session config).notifySet = [] ∧
    (process_listings listings session config).sess = session ∧
    (process_listings listings session config).batches = [] := by
  rw [process_listings_eq]
  exact ⟨rfl, rfl, rfl⟩

/-- Claim C7 amended witness: the stored, un-notified record realizes the
hypotheses. -/
theorem claimC7_record_never_marked_witness :
    (process_listings [sampleStored] sampleSession sampleConfig).notifySet =
      [] ∧
    (process_listings [sampleStored] sampleSession sampleConfig).sess =
      sampleSession ∧
    (process_listings [sampleStored] sampleSession sampleConfig).batches =
      [] :=
  claimC7_record_never_marked [sampleStored] sampleSession sampleConfig
    sampleStored (by simp [sampleSession]) rfl

/-- Claim C8: the batch of a process call commits as a single transaction:
when the flush of a batch of 5 pending inserts raises a StorageError, the
transactional scope rolls back entirely - the database afterwards is exactly
the original store, containing none of the 5 records - and a DatabaseError
propagates to the caller. -/
theorem claimC8_rollback_on_storage_error (store newRecs : List Listing)
    (hlen : newRecs.length = 5) :
    session_scope store true
        (fun s => Except.ok { s with pending := s.pending ++ newRecs }) =
      (Except.error PyErr.databaseError, store) := rfl

/-- Claim C8 witness: five concrete records staged on an empty store. -/
theorem claimC8_rollback_witness :
    session_scope [] true
        (fun s => Except.ok { s with pending := s.pending ++ sampleFive }) =
      (Except.error PyErr.databaseError, []) :=
  claimC8_rollback_on_storage_error [] sampleFive rfl

/-- Claim C9, evaluated at the failing input: the extractor splits the meta
text on the two-character mojibake literal of main.py:214, which never matches
the real middle-dot glyph, so the claimed input is dropped with a parse error
instead of yielding the two trimmed fields - while the same text written with
the mojibake separator is what the code actually splits as claimed. -/
theorem claimC9_meta_split_fails :
    splitMeta "3h ago · Brooklyn" = none ∧
    parseListingElement "Old bookshelf"
      "https://newyork.craigslist.org/brk/zip/d/old-bookshelf/7001234567.html"
      "3h ago · Brooklyn" "2026-10-12 09:00:00" = none ∧
    splitMeta "3h ago Â· Brooklyn" = some ("3h ago", "Brooklyn") :=
  ⟨rfl, rfl, rfl⟩

/-- Claim C10: a record whose identity already exists in the store with
notified = true is never re-included in any dispatched batch, for every store
state and every sequence of extraction results across cycles (in the shipped
code no batch is ever dispatched at all). -/
theorem claimC10_never_renotify (config : Config) (store : List Listing)
    (initialRun : Bool) (cycles : List (List UrlOutcome)) (x : Listing)
    (hmem : x ∈ store) (hnot : x.notified = true) :
    ((runCycles config store initialRun cycles).batches.filter
      (fun b => b.any (fun l => l.cl_id == x.cl_id))) = [] := by
  rw [(runCycles_inert config cycles store initialRun).2]
  rfl

/-- Claim C10 witness: a store that already holds the notified record while
the same listing is extracted again. -/
theorem claimC10_never_renotify_witness :
    ((runCycles sampleConfig [sampleNotified] false
        [[UrlOutcome.ok [sampleListing]]]).batches.filter
      (fun b => b.any (fun l => l.cl_id == sampleNotified.cl_id))) = [] :=
  claimC10_never_renotify sampleConfig [sampleNotified] false
    [[UrlOutcome.ok [sampleListing]]] sampleNotified (by simp) rfl

end Scraper
